import Mathlib

/-!
Shallow embedding of the gpuinfo Device Query Engine (src/gpuinfo/__init__.py,
src/gpuinfo/impl.py, src/gpuinfo/datatypes.py, src/gpuinfo/provider.py).

Machine integers of the Python source are modelled as `Int` (Python ints are
unbounded, so no wrap-around is needed).  Fallible code returns `Except Err`.
The thread-local active-backend cell is modelled by explicit state passing.
-/

namespace GpuInfo

/-- Provider name tags as stored in a Descriptor's `provider` field
(the mock backend only ever writes the strings 'CUDA' and 'HIP'). -/
inductive PName where
  | CUDA
  | HIP
deriving DecidableEq, Repr

/-- The string stored in the descriptor (`provider='CUDA'` / `provider='HIP'`
in `MockImplementation.get`). -/
def PName.tag : PName → String
  | .CUDA => "CUDA"
  | .HIP => "HIP"

/-- `Provider(IntFlag)` over the universe {CUDA, HIP}: one bit per provider
(src/gpuinfo/provider.py).  CUDA has bit value 1, HIP bit value 2. -/
structure Provider where
  cuda : Bool
  hip : Bool
deriving DecidableEq, Repr

namespace Provider

def ANY : Provider := ⟨false, false⟩

def cudaP : Provider := ⟨true, false⟩

def hipP : Provider := ⟨false, true⟩

def ALL : Provider := ⟨true, true⟩

/-- Bitwise `&` on provider masks. -/
def pand (a b : Provider) : Provider := ⟨a.cuda && b.cuda, a.hip && b.hip⟩

/-- `a & ~b`: the Python `required &= ~prov` update. -/
def pdiff (a b : Provider) : Provider := ⟨a.cuda && !b.cuda, a.hip && !b.hip⟩

/-- Python truthiness of an IntFlag: nonzero bit pattern. -/
def nonzero (p : Provider) : Bool := p.cuda || p.hip

/-- The integer value of the flag (CUDA=1, HIP=2), as used when a Provider
leaks into an integer position (e.g. the buggy `get(prov)` call). -/
def val (p : Provider) : Int := (if p.cuda then 1 else 0) + (if p.hip then 2 else 0)

/-- `Provider[tag]`: name lookup from a descriptor's provider string. -/
def ofName : PName → Provider
  | .CUDA => cudaP
  | .HIP => hipP

end Provider

/-- Iteration order of `for p in Provider`: Python 3.11+ Flag iteration yields
the canonical single-bit members, CUDA before HIP. -/
def univPN : List PName := [.CUDA, .HIP]

/-- The errors the engine can raise. -/
inductive Err where
  /-- `IndexError('Invalid device index')` from `MockImplementation.get`. -/
  | indexError
  /-- `ValueError` from `save_visible` naming the `*_VISIBLE_DEVICES` variable
  of provider `p` and the offending token. -/
  | invalidToken (p : PName) (tok : String)
  /-- `ValueError('Negative number of mock devices!')`. -/
  | negMockCount
  /-- `RuntimeError('Provider {p} is required but the relevant runtime is missing ...')`. -/
  | runtimeMissing (p : Provider)
  /-- `RuntimeError('No GPUs detected')`. -/
  | noGPUs
  /-- `RuntimeError('GPUs of the following required providers could not be found: ...')`. -/
  | notFound (ps : List Provider)
  /-- `RuntimeError('No suitable GPUs detected')`. -/
  | noSuitable
  /-- Python `RecursionError` (stack exhaustion), used when the fuel of the
  embedded recursion runs out. -/
  | recursionError
deriving DecidableEq, Repr

/-! ### Python `int(str)` and `str.split(',')` -/

/-- ASCII whitespace stripped by Python `int()` around a numeric literal. -/
def pyIsSpace (c : Char) : Bool :=
  c = ' ' || c = '\t' || c = '\n' || c = '\r' || c = Char.ofNat 11 || c = Char.ofNat 12

def pyStrip (cs : List Char) : List Char :=
  ((cs.dropWhile pyIsSpace).reverse.dropWhile pyIsSpace).reverse

def digitVal (c : Char) : Nat := c.toNat - 48

/-- Digits of an integer literal after the first digit: Python allows single
underscores strictly between digits. -/
def pyDigitsCore : List Char → Nat → Option Nat
  | [], acc => some acc
  | c :: rest, acc =>
    if c.isDigit then pyDigitsCore rest (acc * 10 + digitVal c)
    else if c = '_' then
      match rest with
      | [] => none
      | d :: rest2 => if d.isDigit then pyDigitsCore rest2 (acc * 10 + digitVal d) else none
    else none

/-- A nonempty digit string (with optional internal underscores). -/
def pyDigits : List Char → Option Nat
  | [] => none
  | c :: rest => if c.isDigit then pyDigitsCore rest (digitVal c) else none

def pyIntCore : List Char → Option Int
  | '+' :: rest => (pyDigits rest).map Int.ofNat
  | '-' :: rest => (pyDigits rest).map (fun n => -(n : Int))
  | cs => (pyDigits cs).map Int.ofNat

/-- Python `int(s)` for a decimal string: optional surrounding ASCII
whitespace, optional single sign, digits with optional internal underscores.
Returns `none` where Python raises `ValueError`. -/
def pyInt (s : String) : Option Int := pyIntCore (pyStrip s.toList)

def splitCommaGo : List Char → List Char → List String
  | [], acc => [⟨acc.reverse⟩]
  | c :: rest, acc =>
    if c = ',' then ⟨acc.reverse⟩ :: splitCommaGo rest [] else splitCommaGo rest (c :: acc)

/-- Python `s.split(',')`: keeps empty pieces, `''.split(',') == ['']`. -/
def pySplitComma (s : String) : List String := splitCommaGo s.toList []

/-! ### De-duplicated ascending sort (Python `sorted(list(set(...)))`) -/

/-- Insert into a strictly ascending list, dropping duplicates. -/
def insSorted (x : Int) : List Int → List Int
  | [] => [x]
  | y :: ys => if x < y then x :: y :: ys else if x = y then y :: ys else y :: insSorted x ys

/-- The ascending de-duplicated list of the values of `l`:
Python's `sorted(list({...}))`. -/
def sortedDedup (l : List Int) : List Int := l.foldr insSorted []

/-! ### Visibility resolver (`GenuineImplementation.save_visible`) -/

/-- Parse the comma-separated tokens of a `*_VISIBLE_DEVICES` value, left to
right; the first token on which `int()` fails raises the validation error
naming the provider and the token (`_is_int` in the source). -/
def parseTokens (p : PName) : List String → Except Err (List Int)
  | [] => .ok []
  | g :: rest =>
    match pyInt g with
    | some v => (parseTokens p rest).map (fun vs => v :: vs)
    | none => .error (.invalidToken p g)

/-- `{ int(g) for g in raw.split(',') if _is_int(g, p) }` followed by
`sorted(list(...))`. -/
def parseVisible (p : PName) (raw : String) : Except Err (List Int) :=
  match parseTokens p (pySplitComma raw) with
  | .ok vals => .ok (sortedDedup vals)
  | .error e => .error e

/-- The Visibility map yielded by `save_visible`: per provider, the parsed
allow-list or the unrestricted sentinel `None`. -/
structure Visible where
  cuda : Option (List Int)
  hip : Option (List Int)
deriving DecidableEq, Repr

/-- `visible.get(prov)`: dictionary lookup on the two-key map (a key outside
the universe yields the dict.get default `None`). -/
def Visible.get (v : Visible) (p : Provider) : Option (List Int) :=
  if p = Provider.cudaP then v.cuda else if p = Provider.hipP then v.hip else none

/-- The pure core of `GenuineImplementation.save_visible`: resolve the two raw
environment-variable states into a Visibility map.  An absent variable is the
`None` sentinel, except that an absent HIP variable inherits CUDA's parsed
list. -/
def save_visible (cudaVar hipVar : Option String) : Except Err Visible :=
  match cudaVar with
  | none =>
    match hipVar with
    | none => .ok ⟨none, none⟩
    | some s =>
      match parseVisible .HIP s with
      | .ok l => .ok ⟨none, some l⟩
      | .error e => .error e
  | some c =>
    match parseVisible .CUDA c with
    | .error e => .error e
    | .ok lc =>
      match hipVar with
      | none => .ok ⟨some lc, some lc⟩
      | some s =>
        match parseVisible .HIP s with
        | .ok l => .ok ⟨some lc, some l⟩
        | .error e => .error e

/-- Position of `x` in `l` (Python `list.index`, as `Option` instead of
raising `ValueError`). -/
def listIndexOf : List Int → Int → Option Nat
  | [], _ => none
  | y :: ys, x => if y = x then some 0 else (listIndexOf ys x).map Nat.succ

/-- `_global_to_visible(system_index, visible)` (src/gpuinfo/__init__.py:32). -/
def _global_to_visible (system_index : Int) (visible : Option (List Int)) : Option Int :=
  match visible with
  | none => some system_index
  | some l => (listIndexOf l system_index).map Int.ofNat

/-! ### Mock backend (`MockImplementation`, src/gpuinfo/impl.py) -/

/-- The shared property template (`cobj_args` of `MockImplementation`). -/
structure MockArgs where
  name : String
  major : Int
  minor : Int
  total_memory : Int
  sms_count : Int
  sm_threads : Int
  sm_shared_memory : Int
  sm_registers : Int
  sm_blocks : Int
  block_threads : Int
  block_shared_memory : Int
  block_registers : Int
  warp_size : Int
  l2_cache_size : Int
  concurrent_kernels : Bool
  async_engines_count : Int
  cooperative : Bool
deriving DecidableEq, Repr

/-- The default template arguments of `MockImplementation.__init__` /
`gpuinfo.mock(...)`. -/
def defaultMockArgs : MockArgs :=
  ⟨"MockDevice", 1, 2, 8 * 1024 ^ 3, 12, 2048, 16 * 1024, 512, 4, 1024, 8 * 1024, 256,
    32, 8 * 1024 ^ 2, true, 0, true⟩

/-- A synthesized device descriptor (`MockCObj`, src/gpuinfo/datatypes.py). -/
structure MockCObj where
  ord : Int
  provider : PName
  index : Int
  name : String
  major : Int
  minor : Int
  total_memory : Int
  sms_count : Int
  sm_threads : Int
  sm_shared_memory : Int
  sm_registers : Int
  sm_blocks : Int
  block_threads : Int
  block_shared_memory : Int
  block_registers : Int
  warp_size : Int
  l2_cache_size : Int
  concurrent_kernels : Bool
  async_engines_count : Int
  cooperative : Bool
deriving DecidableEq, Repr

def lbrace : Char := Char.ofNat 123

def rbrace : Char := Char.ofNat 125

def replaceFirstBraces (arg : List Char) : List Char → List Char
  | [] => []
  | c :: rest =>
    if c = lbrace then
      match rest with
      | [] => [c]
      | r :: rest2 =>
        if r = rbrace then arg ++ rest2 else c :: replaceFirstBraces arg rest
    else c :: replaceFirstBraces arg rest

/-- `template.format(arg)` for a template with at most one positional
placeholder (the only shape this package ever formats): the first occurrence
of the placeholder is replaced by `arg`, a template without a placeholder is
returned unchanged. -/
def pyFormat1 (template arg : String) : String := ⟨replaceFirstBraces arg.toList template.toList⟩

/-- `MockCObj(ord=ord, provider=provider, index=index, **cobj_args)`:
the template fields plus the provider-tagged name
(`self.name = name.format(provider)`). -/
def mockCObj (ord : Int) (p : PName) (index : Int) (args : MockArgs) : MockCObj :=
  { ord := ord, provider := p, index := index, name := pyFormat1 args.name p.tag,
    major := args.major, minor := args.minor, total_memory := args.total_memory,
    sms_count := args.sms_count, sm_threads := args.sm_threads,
    sm_shared_memory := args.sm_shared_memory, sm_registers := args.sm_registers,
    sm_blocks := args.sm_blocks, block_threads := args.block_threads,
    block_shared_memory := args.block_shared_memory, block_registers := args.block_registers,
    warp_size := args.warp_size, l2_cache_size := args.l2_cache_size,
    concurrent_kernels := args.concurrent_kernels,
    async_engines_count := args.async_engines_count, cooperative := args.cooperative }

/-- The state of a constructed `MockImplementation`. -/
structure Mock where
  cuda_count : Option Int
  hip_count : Option Int
  overall_count : Int
  cuda_visible : List Int
  hip_visible : List Int
  cobj_args : MockArgs
deriving Repr

/-- Python `count or 0`: `None` and `0` are falsy. -/
def orZero (o : Option Int) : Int := o.getD 0

/-- Python `range(n)` as a list of ints (empty for `n ≤ 0`). -/
def pyRange (n : Int) : List Int := (List.range n.toNat).map Int.ofNat

/-- Normalization of a visibility argument in `MockImplementation.__init__`:
`[idx for idx in range(count or 0) if idx in vis]`, or the full range when the
argument is `None`. -/
def visNorm (count : Int) : Option (List Int) → List Int
  | some l => (pyRange count).filter (fun idx => decide (idx ∈ l))
  | none => pyRange count

/-- `MockImplementation.__init__`: rejects negative device counts, stores the
counts, the overall count and the normalized visibility lists. -/
def MockImplementation (cuda_count hip_count : Option Int)
    (cuda_visible hip_visible : Option (List Int)) (args : MockArgs) : Except Err Mock :=
  if cuda_count.any (· < 0) || hip_count.any (· < 0) then .error .negMockCount
  else .ok
    { cuda_count := cuda_count, hip_count := hip_count,
      overall_count := orZero cuda_count + orZero hip_count,
      cuda_visible := visNorm (orZero cuda_count) cuda_visible,
      hip_visible := visNorm (orZero hip_count) hip_visible,
      cobj_args := args }

/-- `MockImplementation.count`: devices visible under the currently stored
visibility lists. -/
def Mock.count (m : Mock) : Nat := m.cuda_visible.length + m.hip_visible.length

/-- `MockImplementation.get(ord)`: bounds check against `overall_count`, then
provider and per-provider index from the contiguous-range rule. -/
def Mock.get (m : Mock) (ord : Int) : Except Err MockCObj :=
  if ord < 0 || ord ≥ m.overall_count then .error .indexError
  else if ord ≥ orZero m.cuda_count then
    .ok (mockCObj ord .HIP (ord - orZero m.cuda_count) m.cobj_args)
  else .ok (mockCObj ord .CUDA ord m.cobj_args)

/-- `MockImplementation.provider_check`: true iff that provider's count is
non-`None` (even when zero). -/
def Mock.provider_check (m : Mock) : PName → Bool
  | .CUDA => m.cuda_count.isSome
  | .HIP => m.hip_count.isSome

/-- The Visibility map yielded by `MockImplementation.save_visible`: a copy of
the stored per-provider lists. -/
def Mock.snapshot (m : Mock) : Visible := ⟨some m.cuda_visible, some m.hip_visible⟩

/-- `count()` as reported inside a `save_visible(clear=True)` scope, where the
stored lists have been cleared to the full constructed ranges. -/
def Mock.clearedCount (m : Mock) : Nat :=
  (pyRange (orZero m.cuda_count)).length + (pyRange (orZero m.hip_count)).length

/-! ### Query engine (src/gpuinfo/__init__.py) -/

/-- A `Properties` record of src/gpuinfo/__init__.py: the backend descriptor
plus the resolved local (visible) index. -/
structure Props where
  cobj : MockCObj
  local_index : Option Int
deriving DecidableEq, Repr

/-- The `required` argument of `query`: `None`, `True`, or a provider mask. -/
inductive Required where
  | nothing
  | always
  | mask (p : Provider)
deriving DecidableEq, Repr

/-- The device loop of `query` (`for idx in range(num)`), threading the
outstanding `required` mask and the accumulated result list. -/
def queryLoop (m : Mock) (vis : Visible) (provF : Provider) (visibleOnly : Bool) :
    List Nat → Option Provider → List Props → Except Err (Option Provider × List Props)
  | [], req, ret => .ok (req, ret)
  | i :: rest, req, ret => do
    let dev ← m.get (Int.ofNat i)
    let prov := Provider.ofName dev.provider
    let visible_set := vis.get prov
    let local_index := _global_to_visible dev.index visible_set
    if visibleOnly && local_index.isNone then
      queryLoop m vis provF visibleOnly rest req ret
    else
      let req2 :=
        match req with
        | some r => if (prov.pand r).nonzero then some (r.pdiff prov) else some r
        | none => none
      let ret2 := if (provF.pand prov).nonzero then ret ++ [⟨dev, local_index⟩] else ret
      queryLoop m vis provF visibleOnly rest req2 ret2

/-- The tail of `query` after the device loop: raise for still-outstanding
required providers (listing them in universe order), raise when `required=True`
produced an empty result, else return the accumulated list. -/
def queryFinish (nonempty : Bool) (st : Option Provider × List Props) :
    Except Err (List Props) :=
  match st.1 with
  | some r =>
    if r.nonzero then
      .error (.notFound (univPN.filterMap (fun p =>
        if ((Provider.ofName p).pand r).nonzero then some (Provider.ofName p) else none)))
    else if st.2.isEmpty && nonempty then .error .noSuitable
    else .ok st.2
  | none => if st.2.isEmpty && nonempty then .error .noSuitable else .ok st.2

/-- `query(provider, required, visible_only)` against a Mock backend
(src/gpuinfo/__init__.py:269-317). -/
def query (m : Mock) (provider : Option Provider) (required : Required)
    (visible_only : Bool) : Except Err (List Props) := do
  let reqNE : Option Provider × Bool :=
    match required with
    | .nothing => (none, false)
    | .always => (some Provider.ANY, true)
    | .mask r => (some r, false)
  let req := reqNE.1
  let nonempty := reqNE.2
  let provF :=
    match provider with
    | none => Provider.ALL
    | some p => if p = Provider.ANY then Provider.ALL else p
  match req with
  | some r =>
    if r.nonzero then
      let _ ← univPN.mapM (fun p =>
        if ((Provider.ofName p).pand r).nonzero then
          if m.provider_check p then Except.ok PUnit.unit
          else Except.error (Err.runtimeMissing (Provider.ofName p))
        else Except.ok PUnit.unit)
      pure PUnit.unit
    else pure PUnit.unit
  | none => pure PUnit.unit
  let vis := m.snapshot
  let num := m.clearedCount
  if num = 0 then
    if req.isSome || nonempty then Except.error Err.noGPUs else Except.ok []
  else do
    let st ← queryLoop m vis provF visible_only (List.range num) req []
    queryFinish nonempty st

/-- The buggy fast path of `get(idx, provider=ALL, visible_only=False)`
(src/gpuinfo/__init__.py:361-368), with a fuel bound standing for the Python
recursion limit.  Line 366 reads `visible_set = visible,get(prov)` — a tuple
whose second component re-enters `get` at index `int(prov)` — instead of
`visible.get(prov)`.  When the stray recursive call returns, the subsequent
`_global_to_visible(ret.index, visible_set)` calls `tuple.index` on the pair
`(visible, get(prov))`, which contains no element equal to the integer
`ret.index`, so `ValueError` is caught and the local index becomes `None`. -/
def getBuggy : Nat → Mock → Int → Except Err Props
  | 0, _, _ => .error .recursionError
  | fuel + 1, m, idx => do
    let ret ← m.get idx
    let prov := Provider.ofName ret.provider
    let _inner ← getBuggy fuel m prov.val
    return ⟨ret, none⟩

/-! ### Scope manager (src/gpuinfo/__init__.py:10-29) -/

/-- A Python-level value held by the thread-local attribute: `None` or an
`Implementation` (represented by an identity token). -/
abbrev ImplVal := Option Nat

/-- The thread-local cell: `none` when the `value` attribute was never set on
this thread, `some v` once `_set_impl` stored `v`. -/
abbrev ImplCell := Option ImplVal

/-- The identity of the process-wide `_default_impl` singleton. -/
def _default_impl : Nat := 0

/-- `_get_impl()`: `getattr(_current_implementation, 'value', _default_impl)`. -/
def _get_impl (c : ImplCell) : ImplVal := c.getD (some _default_impl)

/-- `_set_impl(impl)`: a bare assignment to the attribute; the function body
has no `return`, so the call evaluates to Python `None` (the first component
below). -/
def _set_impl (v : ImplVal) (_c : ImplCell) : ImplVal × ImplCell := (none, some v)

/-- `_with_impl(impl)`: capture `curr = _get_impl()`, install `impl`, run the
body (which may itself read and mutate the cell, and may raise), and restore
`curr` in the `finally` block on both exit paths. -/
def _with_impl {ε α : Type} (v : ImplVal) (body : ImplCell → Except ε α × ImplCell)
    (c : ImplCell) : Except ε α × ImplCell :=
  let curr := _get_impl c
  let c1 := (_set_impl v c).2
  let res := body c1
  (res.1, (_set_impl curr res.2).2)

/-! ### `Properties.__eq__` (src/gpuinfo/datatypes.py:184-194) -/

/-- A `Properties` record of src/gpuinfo/datatypes.py: descriptor, local
index, and the owning backend (by identity). -/
structure PropertiesD where
  implId : Nat
  cobj : MockCObj
  local_index : Option Int
deriving DecidableEq, Repr

/-- `self.asdict(strip_index=True) == other.asdict(strip_index=True)`: field
comparison excluding the `ord`, `index` and `system_index` entries. -/
def strippedEq (a b : PropertiesD) : Bool :=
  a.cobj.provider == b.cobj.provider && a.cobj.name == b.cobj.name &&
  a.cobj.major == b.cobj.major && a.cobj.minor == b.cobj.minor &&
  a.cobj.total_memory == b.cobj.total_memory && a.cobj.sms_count == b.cobj.sms_count &&
  a.cobj.sm_threads == b.cobj.sm_threads &&
  a.cobj.sm_shared_memory == b.cobj.sm_shared_memory &&
  a.cobj.sm_registers == b.cobj.sm_registers && a.cobj.sm_blocks == b.cobj.sm_blocks &&
  a.cobj.block_threads == b.cobj.block_threads &&
  a.cobj.block_shared_memory == b.cobj.block_shared_memory &&
  a.cobj.block_registers == b.cobj.block_registers &&
  a.cobj.warp_size == b.cobj.warp_size && a.cobj.l2_cache_size == b.cobj.l2_cache_size &&
  a.cobj.concurrent_kernels == b.cobj.concurrent_kernels &&
  a.cobj.async_engines_count == b.cobj.async_engines_count &&
  a.cobj.cooperative == b.cobj.cooperative

/-- `Properties.__eq__`: same backend with equal local indices short-circuits
to `True`; every other pair of `Properties` falls through to the stripped
field comparison. -/
def propsEq (a b : PropertiesD) : Bool :=
  if a.implId == b.implId && a.local_index == b.local_index then true
  else strippedEq a b

/-- The Mock state produced by `MockImplementation(cuda_count=n, hip_count=hipc)`
with default visibility, when `hipc` contributes no devices. -/
def onlyCudaMock (n : Nat) (hipc : Option Int) : Mock :=
  ⟨some (n : Int), hipc, (n : Int), pyRange (n : Int), [], defaultMockArgs⟩

/-! ## Helper lemmas -/

theorem mem_insSorted {x y : Int} {l : List Int} :
    y ∈ insSorted x l ↔ y = x ∨ y ∈ l := by
  induction l with
  | nil => simp [insSorted]
  | cons z zs ih =>
    simp only [insSorted]
    split_ifs with h1 h2
    · simp only [List.mem_cons]
    · subst h2
      simp only [List.mem_cons]
      tauto
    · simp only [List.mem_cons, ih]
      tauto

theorem sorted_insSorted {x : Int} {l : List Int} (h : l.Sorted (· < ·)) :
    (insSorted x l).Sorted (· < ·) := by
  induction l with
  | nil => simp [insSorted]
  | cons z zs ih =>
    rw [List.sorted_cons] at h
    by_cases h1 : x < z
    · simp only [insSorted, if_pos h1]
      rw [List.sorted_cons]
      refine ⟨?_, by rw [List.sorted_cons]; exact h⟩
      intro b hb
      rcases List.mem_cons.mp hb with rfl | hb
      · exact h1
      · exact h1.trans (h.1 b hb)
    · by_cases h2 : x = z
      · simp only [insSorted, if_neg h1, if_pos h2]
        rw [List.sorted_cons]
        exact h
      · have hzx : z < x := by omega
        simp only [insSorted, if_neg h1, if_neg h2]
        rw [List.sorted_cons]
        refine ⟨?_, ih h.2⟩
        intro b hb
        rcases mem_insSorted.mp hb with rfl | hb
        · exact hzx
        · exact h.1 b hb

theorem sorted_sortedDedup (l : List Int) : (sortedDedup l).Sorted (· < ·) := by
  induction l with
  | nil => simp [sortedDedup]
  | cons x xs ih => exact sorted_insSorted ih

theorem nodup_sortedDedup (l : List Int) : (sortedDedup l).Nodup :=
  (sorted_sortedDedup l).nodup

theorem mem_sortedDedup {v : Int} {l : List Int} : v ∈ sortedDedup l ↔ v ∈ l := by
  induction l with
  | nil => simp [sortedDedup]
  | cons x xs ih =>
    show v ∈ insSorted x (sortedDedup xs) ↔ _
    rw [mem_insSorted, ih]
    simp

theorem parseTokens_ok_iff {p : PName} {ts : List String} :
    (∃ l, parseTokens p ts = .ok l) ↔ ∀ t ∈ ts, (pyInt t).isSome := by
  induction ts with
  | nil => simp [parseTokens]
  | cons g rest ih =>
    cases hg : pyInt g with
    | none => simp [parseTokens, hg]
    | some v =>
      simp only [parseTokens, hg, List.mem_cons]
      constructor
      · rintro ⟨l, hl⟩ t ht
        rcases ht with rfl | ht
        · simp [hg]
        · cases hr : parseTokens p rest with
          | ok l0 => exact ih.mp ⟨l0, hr⟩ t ht
          | error e => rw [hr] at hl; exact absurd hl (by simp [Except.map])
      · intro hall
        obtain ⟨l0, hl0⟩ := ih.mpr (fun t ht => hall t (Or.inr ht))
        exact ⟨v :: l0, by rw [hl0]; rfl⟩

theorem parseTokens_mem {p : PName} {ts : List String} {l : List Int}
    (h : parseTokens p ts = .ok l) :
    ∀ v, v ∈ l ↔ ∃ t ∈ ts, pyInt t = some v := by
  induction ts generalizing l with
  | nil =>
    simp only [parseTokens] at h
    cases h
    simp
  | cons g rest ih =>
    cases hg : pyInt g with
    | none => simp [parseTokens, hg] at h
    | some w =>
      simp only [parseTokens, hg] at h
      cases hr : parseTokens p rest with
      | error e => rw [hr] at h; exact absurd h (by simp [Except.map])
      | ok l0 =>
        rw [hr] at h
        simp only [Except.map] at h
        cases h
        intro v
        simp only [List.mem_cons, ih hr]
        constructor
        · rintro (rfl | ⟨t, ht, hv⟩)
          · exact ⟨g, Or.inl rfl, hg⟩
          · exact ⟨t, Or.inr ht, hv⟩
        · rintro ⟨t, rfl | ht, hv⟩
          · rw [hg] at hv; cases hv; exact Or.inl rfl
          · exact Or.inr ⟨t, ht, hv⟩

theorem parseTokens_find_err {p : PName} {ts : List String} {t : String}
    (h : ts.find? (fun s => (pyInt s).isNone) = some t) :
    parseTokens p ts = .error (.invalidToken p t) := by
  induction ts with
  | nil => simp [List.find?] at h
  | cons g rest ih =>
    cases hg : pyInt g with
    | none =>
      rw [List.find?_cons_of_pos _ (by simp [hg])] at h
      cases h
      simp [parseTokens, hg]
    | some v =>
      rw [List.find?_cons_of_neg _ (by simp [hg])] at h
      simp [parseTokens, hg, ih h, Except.map]

theorem mem_pyRange {x : Int} {n : Int} : x ∈ pyRange n ↔ 0 ≤ x ∧ x < n := by
  simp only [pyRange, List.mem_map, List.mem_range, Int.ofNat_eq_natCast]
  constructor
  · rintro ⟨k, hk, rfl⟩
    omega
  · intro hx
    exact ⟨x.toNat, by omega, by omega⟩

theorem sorted_pyRange (n : Int) : (pyRange n).Sorted (· < ·) :=
  List.Pairwise.map _ (fun _ _ h => Int.ofNat_lt.mpr h) (List.sorted_lt_range n.toNat)

theorem sorted_visNorm (count : Int) (vis : Option (List Int)) :
    (visNorm count vis).Sorted (· < ·) := by
  cases vis with
  | none => exact sorted_pyRange count
  | some l => exact List.Pairwise.filter _ (sorted_pyRange count)

theorem mem_visNorm_some {count : Int} {l : List Int} {x : Int} :
    x ∈ visNorm count (some l) ↔ 0 ≤ x ∧ x < count ∧ x ∈ l := by
  simp only [visNorm, List.mem_filter, mem_pyRange, decide_eq_true_eq]
  tauto

theorem listIndexOf_isSome {l : List Int} {x : Int} :
    (listIndexOf l x).isSome = true ↔ x ∈ l := by
  induction l with
  | nil => simp [listIndexOf]
  | cons y ys ih =>
    by_cases h : y = x
    · simp [listIndexOf, h]
    · simp only [listIndexOf, if_neg h, List.mem_cons]
      rw [← ih]
      cases hl : listIndexOf ys x with
      | none =>
        simp only [hl, Option.map_none', Option.isSome_none]
        simp only [Option.isSome_none] at *
        constructor
        · intro hc; exact absurd hc (by simp)
        · rintro (rfl | hc)
          · exact absurd rfl h
          · exact absurd hc (by simp)
      | some k => simp [hl]

theorem exceptBind_ok {ε α β : Type} (x : α) (f : α → Except ε β) :
    (Except.ok x : Except ε α) >>= f = f x := rfl

/-- One step of the device loop on a mock whose ordinal `i` is a CUDA device:
the device is visible under the default full visibility, is filtered out by
the HIP provider filter, and only the `required` mask is updated. -/
theorem queryLoop_onlyCuda_step (n : Nat) (hipc : Option Int) (i : Nat) (hi : i < n)
    (rest : List Nat) (req : Option Provider) (ret : List Props) :
    queryLoop (onlyCudaMock n hipc) (onlyCudaMock n hipc).snapshot Provider.hipP true
      (i :: rest) req ret
    = queryLoop (onlyCudaMock n hipc) (onlyCudaMock n hipc).snapshot Provider.hipP true
      rest
      (match req with
       | some r => if (Provider.cudaP.pand r).nonzero then some (r.pdiff Provider.cudaP)
                   else some r
       | none => none) ret := by
  have hget : (onlyCudaMock n hipc).get (Int.ofNat i)
      = .ok (mockCObj (Int.ofNat i) .CUDA (Int.ofNat i) defaultMockArgs) := by
    unfold onlyCudaMock Mock.get
    rw [if_neg (by simp only [Bool.or_eq_true, decide_eq_true_eq, Int.ofNat_eq_natCast]; omega),
        if_neg (by simp only [orZero, Option.getD, Int.ofNat_eq_natCast, ge_iff_le]; omega)]
  have hsome : (listIndexOf (pyRange ((n : Nat) : Int)) (Int.ofNat i)).isSome = true :=
    listIndexOf_isSome.mpr (mem_pyRange.mpr (by simp only [Int.ofNat_eq_natCast]; omega))
  obtain ⟨k, hk⟩ := Option.isSome_iff_exists.mp hsome
  simp only [queryLoop, hget, exceptBind_ok]
  simp only [mockCObj, Provider.ofName, Mock.snapshot, onlyCudaMock, Visible.get,
    _global_to_visible, if_pos rfl]
  simp [hk, Provider.pand, Provider.nonzero, Provider.hipP, Provider.cudaP]
  intro hnone
  rw [Int.ofNat_eq_natCast] at hk
  rw [hnone] at hk
  cases hk

/-- The device loop leaves a `required` mask without the CUDA bit unchanged
on an all-CUDA device list and accumulates nothing under the HIP filter. -/
theorem queryLoop_onlyCuda_skip (n : Nat) (hipc : Option Int) (r : Provider)
    (hr : r.cuda = false) :
    ∀ (l : List Nat), (∀ i ∈ l, i < n) → ∀ (ret : List Props),
      queryLoop (onlyCudaMock n hipc) (onlyCudaMock n hipc).snapshot Provider.hipP true
        l (some r) ret = .ok (some r, ret) := by
  intro l
  induction l with
  | nil => intro _ ret; rfl
  | cons i rest ih =>
    intro hl ret
    rw [queryLoop_onlyCuda_step n hipc i (hl i (List.mem_cons_self i rest)) rest (some r) ret]
    have hz : (Provider.cudaP.pand r).nonzero = false := by
      simp [Provider.pand, Provider.nonzero, Provider.cudaP, hr]
    simp only [hz, Bool.false_eq_true, if_false]
    exact ih (fun j hj => hl j (List.mem_cons_of_mem i hj)) ret

/-- The first CUDA device satisfies (clears) a `required=CUDA` mask; the rest
of an all-CUDA loop changes nothing further. -/
theorem queryLoop_onlyCuda_clearReq (n : Nat) (hipc : Option Int) (i : Nat) (rest : List Nat)
    (hi : i < n) (hrest : ∀ j ∈ rest, j < n) (ret : List Props) :
    queryLoop (onlyCudaMock n hipc) (onlyCudaMock n hipc).snapshot Provider.hipP true
      (i :: rest) (some Provider.cudaP) ret = .ok (some Provider.ANY, ret) := by
  rw [queryLoop_onlyCuda_step n hipc i hi rest (some Provider.cudaP) ret]
  have hz : (Provider.cudaP.pand Provider.cudaP).nonzero = true := rfl
  simp only [hz, if_true]
  have hdiff : Provider.cudaP.pdiff Provider.cudaP = Provider.ANY := rfl
  rw [hdiff]
  exact queryLoop_onlyCuda_skip n hipc Provider.ANY rfl rest hrest ret

theorem clearedCount_onlyCuda (n : Nat) (hipc : Option Int) (h : orZero hipc = 0) :
    (onlyCudaMock n hipc).clearedCount = n := by
  simp only [orZero] at h
  simp [Mock.clearedCount, onlyCudaMock, orZero, pyRange, h]

/-- `MockImplementation(cuda_count=n, hip_count ∈ {None, 0})` with default
visibility constructs the only-CUDA mock state. -/
theorem MockImplementation_onlyCuda (n : Nat) (hipc : Option Int)
    (hh : hipc = none ∨ hipc = some 0) :
    MockImplementation (some (n : Int)) hipc none none defaultMockArgs
      = .ok (onlyCudaMock n hipc) := by
  rcases hh with rfl | rfl <;>
    simp [MockImplementation, onlyCudaMock, orZero, visNorm, pyRange]

/-! ## Claim theorems -/

/-- C1: the fast path of `get(idx, provider=ALL, visible_only=False)` is
claimed to return one Properties record with the Descriptor's local index
resolved from the captured Visibility map.  The code instead evaluates
`visible_set = visible,get(prov)` (line 366: a comma where a dot was meant),
whose stray recursive `get(prov)` call re-enters the fast path at ordinal
`int(prov)`: on a one-CUDA-device mock, `get(0)` therefore calls `get(1)`,
whose backend fetch raises `IndexError` — `get(0)` never returns a
Properties record. -/
theorem get_fastpath_comma_bug :
    (do
      let m ← MockImplementation (some 1) none none none defaultMockArgs
      getBuggy 100 m 0) = Except.error Err.indexError := rfl

/-- C9: the direct setter `_set_impl` is claimed to return the previously
active backend; its body is a bare assignment, so the call evaluates to
Python `None`, not the prior backend (`test_api.py::test_set_impl` asserts
`_set_impl(impl2) is _default_impl` and fails on this code). -/
theorem set_impl_returns_python_none :
    (_set_impl (some 1) (some (some _default_impl))).1 = none
    ∧ (_set_impl (some 1) (some (some _default_impl))).2 = some (some 1)
    ∧ _get_impl (some (some _default_impl)) = some _default_impl
    ∧ (_set_impl (some 1) (some (some _default_impl))).1
        ≠ _get_impl (some (some _default_impl)) :=
  ⟨rfl, rfl, rfl, by decide⟩

/-- C7: for every starting cell state, every installed backend and every body
(including bodies that mutate the cell or raise), `_with_impl` runs the body
with the new backend installed, propagates the body's result or error, and
restores the captured prior value of the cell on exit; nested scopes restore
in LIFO order (the inner scope restores the outer scope's backend, the outer
scope restores the original one). -/
theorem with_impl_restores_prior {ε α : Type} (v w : ImplVal)
    (body : ImplCell → Except ε α × ImplCell) (c : ImplCell) :
    (_with_impl v body c).2 = some (_get_impl c)
    ∧ _get_impl (_with_impl v body c).2 = _get_impl c
    ∧ (_with_impl v body c).1 = (body (some v)).1
    ∧ (_with_impl v (fun c2 => _with_impl w body c2) c).2 = some (_get_impl c)
    ∧ (_with_impl w body (some v)).2 = some v :=
  ⟨rfl, rfl, rfl, rfl, rfl⟩

/-- C5 counterexample: a Mock constructed with `cuda_count=2, hip_count=0,
cuda_visible=[1]` reports `count() == 1` under the active visibility state,
yet `get(1)` succeeds although `1 ∉ [0, count())` — the bounds check is
against the constructed total, not the visible count. -/
theorem mock_get_in_range_beyond_visible_count :
    ∃ m, MockImplementation (some 2) (some 0) (some [1]) none defaultMockArgs = .ok m
      ∧ m.count = 1
      ∧ m.get 1 = .ok (mockCObj 1 .CUDA 1 defaultMockArgs) := by
  refine ⟨_, rfl, ?_, ?_⟩ <;> rfl

/-- C5 amended: `MockImplementation.get(ordinal)` returns a Descriptor exactly
when `ordinal ∈ [0, overall_count)`, where `overall_count` is the total
constructed device count `(cuda_count or 0) + (hip_count or 0)`, independent
of the currently stored visibility lists; outside that range it fails with
the out-of-range error. -/
theorem mock_get_bounds_overall_count (m : Mock) (ord : Int) :
    ((∃ d, m.get ord = .ok d) ↔ 0 ≤ ord ∧ ord < m.overall_count)
    ∧ (m.get ord = .error .indexError ↔ ¬(0 ≤ ord ∧ ord < m.overall_count)) := by
  unfold Mock.get
  split_ifs with hb hc
  · simp only [Bool.or_eq_true, decide_eq_true_eq] at hb
    constructor
    · constructor
      · rintro ⟨d, hd⟩
        cases hd
      · intro hrange
        omega
    · constructor
      · intro _
        intro hrange
        omega
      · intro _
        rfl
  · simp only [Bool.or_eq_true, decide_eq_true_eq, not_or] at hb
    constructor
    · exact ⟨fun _ => by omega, fun _ => ⟨_, rfl⟩⟩
    · constructor
      · intro h
        simp at h
      · intro hn
        exact absurd (by omega) hn
  · simp only [Bool.or_eq_true, decide_eq_true_eq, not_or] at hb
    constructor
    · exact ⟨fun _ => by omega, fun _ => ⟨_, rfl⟩⟩
    · constructor
      · intro h
        simp at h
      · intro hn
        exact absurd (by omega) hn

/-- C6: a Mock with `cuda_count=2, hip_count=3` and default visibility has
`count() == 5`; ordinals 0,1 are CUDA descriptors with provider-scoped
indices 0,1 and ordinals 2,3,4 are HIP descriptors with provider-scoped
indices 0,1,2; each synthesized descriptor carries the shared template
fields and the provider-tagged name (`name.format(provider)`); under the
default full visibility the resolved local indices coincide with the
provider-scoped indices. -/
theorem mock_two_three_layout (args : MockArgs) :
    ∃ m, MockImplementation (some 2) (some 3) none none args = .ok m
      ∧ m.count = 5
      ∧ m.get 0 = .ok (mockCObj 0 .CUDA 0 args)
      ∧ m.get 1 = .ok (mockCObj 1 .CUDA 1 args)
      ∧ m.get 2 = .ok (mockCObj 2 .HIP 0 args)
      ∧ m.get 3 = .ok (mockCObj 3 .HIP 1 args)
      ∧ m.get 4 = .ok (mockCObj 4 .HIP 2 args)
      ∧ _global_to_visible 0 (m.snapshot.get Provider.cudaP) = some 0
      ∧ _global_to_visible 1 (m.snapshot.get Provider.cudaP) = some 1
      ∧ _global_to_visible 0 (m.snapshot.get Provider.hipP) = some 0
      ∧ _global_to_visible 1 (m.snapshot.get Provider.hipP) = some 1
      ∧ _global_to_visible 2 (m.snapshot.get Provider.hipP) = some 2
      ∧ (mockCObj 0 .CUDA 0 args).name = pyFormat1 args.name (PName.tag .CUDA)
      ∧ (mockCObj 2 .HIP 0 args).name = pyFormat1 args.name (PName.tag .HIP) := by
  refine ⟨_, rfl, ?_, ?_, ?_, ?_, ?_, ?_, ?_, ?_, ?_, ?_, ?_, ?_, ?_⟩ <;> rfl

/-- C8 counterexample: two Properties owned by the same backend whose local
indices differ (0 and 1) but whose stripped field sets agree still compare
equal, through the fallback comparison — equality on the same backend is not
"exactly when the local indices are equal". -/
theorem props_eq_same_backend_fallback :
    ∃ a b : PropertiesD, a.implId = b.implId ∧ a.local_index ≠ b.local_index
      ∧ propsEq a b = true :=
  ⟨⟨0, mockCObj 0 .CUDA 0 defaultMockArgs, some 0⟩,
   ⟨0, mockCObj 1 .CUDA 1 defaultMockArgs, some 1⟩,
   rfl, by decide, rfl⟩

/-- C8 amended: `Properties.__eq__` returns True for two records of the same
backend iff their local indices are equal or their field sets excluding the
ordinal, local-index and system-index fields agree; for records of different
backends it returns True iff those stripped field sets agree. -/
theorem props_eq_characterization (a b : PropertiesD) :
    (a.implId = b.implId →
      (propsEq a b = true ↔ (a.local_index = b.local_index ∨ strippedEq a b = true)))
    ∧ (a.implId ≠ b.implId → (propsEq a b = true ↔ strippedEq a b = true)) := by
  unfold propsEq
  constructor
  · intro hid
    by_cases hix : a.local_index = b.local_index
    · rw [if_pos (by simp [hid, hix])]
      simp [hix]
    · rw [if_neg (by simp [hix])]
      simp [hix]
  · intro hid
    rw [if_neg (by simp [hid])]

/-- Witness for C8's amended claim at a concrete same-backend pair. -/
theorem props_eq_characterization_witness :
    propsEq ⟨0, mockCObj 0 .CUDA 0 defaultMockArgs, some 0⟩
        ⟨0, mockCObj 1 .CUDA 1 defaultMockArgs, some 1⟩ = true
      ↔ ((some 0 : Option Int) = some 1
        ∨ strippedEq ⟨0, mockCObj 0 .CUDA 0 defaultMockArgs, some 0⟩
            ⟨0, mockCObj 1 .CUDA 1 defaultMockArgs, some 1⟩ = true) :=
  (props_eq_characterization ⟨0, mockCObj 0 .CUDA 0 defaultMockArgs, some 0⟩
    ⟨0, mockCObj 1 .CUDA 1 defaultMockArgs, some 1⟩).1 rfl

/-- C3 counterexample: the token `-1` is not a non-negative integer, yet
resolution succeeds (Python `int('-1')` parses), yielding `[-1]` — the parse
rule accepts any integer token, not only non-negative ones. -/
theorem parseVisible_negative_token_ok :
    parseVisible .CUDA "-1" = .ok [-1] := rfl

/-- C3 amended: resolution of one provider's allow-list string succeeds iff
every comma-separated token parses as an integer (sign allowed); it then
yields the de-duplicated ascending list of the parsed values; on the first
non-conforming token it fails with the validation error naming the provider
and that token, and it only fails when some token does not parse. -/
theorem parseVisible_characterization (p : PName) (raw : String) :
    ((∀ t ∈ pySplitComma raw, (pyInt t).isSome) →
      ∃ l, parseVisible p raw = .ok l ∧ l.Sorted (· < ·) ∧ l.Nodup ∧
        (∀ v, v ∈ l ↔ ∃ t ∈ pySplitComma raw, pyInt t = some v))
    ∧ (∀ t, (pySplitComma raw).find? (fun s => (pyInt s).isNone) = some t →
        parseVisible p raw = .error (.invalidToken p t))
    ∧ (∀ e, parseVisible p raw = .error e →
        ∃ t ∈ pySplitComma raw, (pyInt t).isNone = true) := by
  refine ⟨?_, ?_, ?_⟩
  · intro hall
    obtain ⟨l0, hl0⟩ := parseTokens_ok_iff.mpr hall
    refine ⟨sortedDedup l0, ?_, sorted_sortedDedup l0, nodup_sortedDedup l0, ?_⟩
    · unfold parseVisible
      rw [hl0]
    · intro v
      rw [mem_sortedDedup]
      exact parseTokens_mem hl0 v
  · intro t ht
    unfold parseVisible
    rw [parseTokens_find_err ht]
  · intro e he
    by_contra hcon
    push_neg at hcon
    have hall : ∀ t ∈ pySplitComma raw, (pyInt t).isSome := by
      intro t ht
      have := hcon t ht
      cases hp : pyInt t with
      | none => exact absurd (by simp [hp]) this
      | some v => simp
    obtain ⟨l0, hl0⟩ := parseTokens_ok_iff.mpr hall
    unfold parseVisible at he
    rw [hl0] at he
    cases he

/-- Witness for C3's amended claim at the spec's round-trip example
`"2,0,1"`, which parses to the ordered list `[0, 1, 2]`. -/
theorem parseVisible_characterization_witness :
    (∃ l, parseVisible .CUDA "2,0,1" = .ok l ∧ l.Sorted (· < ·) ∧ l.Nodup ∧
      (∀ v, v ∈ l ↔ ∃ t ∈ pySplitComma "2,0,1", pyInt t = some v))
    ∧ parseVisible .CUDA "2,0,1" = .ok [0, 1, 2] :=
  ⟨(parseVisible_characterization .CUDA "2,0,1").1 (by decide), rfl⟩

/-- C4: resolution of the pair of allow-list states: a present CUDA variable
with an absent HIP variable makes the HIP entry inherit CUDA's parsed list;
an absent CUDA variable stays the unrestricted sentinel even when HIP is
present (no inheritance in that direction); when both are present each
provider keeps its own independently parsed list. -/
theorem save_visible_cuda_hip_inheritance (sc sh : String) (lc lh : List Int)
    (hc : parseVisible .CUDA sc = .ok lc) (hh : parseVisible .HIP sh = .ok lh) :
    save_visible (some sc) none = .ok ⟨some lc, some lc⟩
    ∧ save_visible none (some sh) = .ok ⟨none, some lh⟩
    ∧ save_visible (some sc) (some sh) = .ok ⟨some lc, some lh⟩ := by
  refine ⟨?_, ?_, ?_⟩ <;> simp only [save_visible, hc, hh]

/-- Witness for C4 at CUDA `"0"` and HIP `"1,2"`. -/
theorem save_visible_cuda_hip_inheritance_witness :
    save_visible (some "0") none = .ok ⟨some [0], some [0]⟩
    ∧ save_visible none (some "1,2") = .ok ⟨none, some [1, 2]⟩
    ∧ save_visible (some "0") (some "1,2") = .ok ⟨some [0], some [1, 2]⟩ :=
  save_visible_cuda_hip_inheritance "0" "1,2" [0] [1, 2] rfl rfl

/-- C10: for any constructed Mock, each provider's stored visibility list is
a strictly ascending duplicate-free subset of `[0, count)` for that
provider's count; an explicit list is filtered (out-of-range and negative
entries silently dropped, construction still succeeds), and a null list is
replaced by the full range. -/
theorem mock_visible_normalization (cc hc : Option Int) (cv hv : Option (List Int))
    (args : MockArgs) (h1 : cc.any (· < 0) = false) (h2 : hc.any (· < 0) = false) :
    ∃ m, MockImplementation cc hc cv hv args = .ok m
      ∧ m.cuda_visible.Sorted (· < ·) ∧ m.cuda_visible.Nodup
      ∧ (∀ x ∈ m.cuda_visible, 0 ≤ x ∧ x < orZero cc)
      ∧ (∀ l, cv = some l → ∀ x, x ∈ m.cuda_visible ↔ 0 ≤ x ∧ x < orZero cc ∧ x ∈ l)
      ∧ (cv = none → m.cuda_visible = pyRange (orZero cc))
      ∧ m.hip_visible.Sorted (· < ·) ∧ m.hip_visible.Nodup
      ∧ (∀ x ∈ m.hip_visible, 0 ≤ x ∧ x < orZero hc)
      ∧ (∀ l, hv = some l → ∀ x, x ∈ m.hip_visible ↔ 0 ≤ x ∧ x < orZero hc ∧ x ∈ l)
      ∧ (hv = none → m.hip_visible = pyRange (orZero hc)) := by
  refine ⟨⟨cc, hc, orZero cc + orZero hc, visNorm (orZero cc) cv, visNorm (orZero hc) hv,
    args⟩, ?_, ?_, ?_, ?_, ?_, ?_, ?_, ?_, ?_, ?_, ?_⟩
  · unfold MockImplementation
    rw [if_neg (by rw [h1, h2]; simp)]
  · exact sorted_visNorm _ _
  · exact (sorted_visNorm _ _).nodup
  · intro x hx
    cases cv with
    | none => exact mem_pyRange.mp hx
    | some l =>
      have h := mem_visNorm_some.mp hx
      exact ⟨h.1, h.2.1⟩
  · rintro l rfl x
    exact mem_visNorm_some
  · rintro rfl
    rfl
  · exact sorted_visNorm _ _
  · exact (sorted_visNorm _ _).nodup
  · intro x hx
    cases hv with
    | none => exact mem_pyRange.mp hx
    | some l =>
      have h := mem_visNorm_some.mp hx
      exact ⟨h.1, h.2.1⟩
  · rintro l rfl x
    exact mem_visNorm_some
  · rintro rfl
    rfl

/-- C2: on a backend whose device universe is only CUDA devices (`hip_count`
either `None` or `0`), `query(provider=HIP, required=CUDA)` returns an empty
list and raises nothing — the CUDA requirement is satisfied by devices that
the provider filter keeps out of the result — while
`query(provider=HIP, required=HIP)` raises a missing-provider failure (the
runtime-missing error when `hip_count=None`, the could-not-be-found error
when `hip_count=0`). -/
theorem query_required_independent_of_filter (n : Nat) (hn : 0 < n) (hipc : Option Int)
    (hh : hipc = none ∨ hipc = some 0) :
    MockImplementation (some (n : Int)) hipc none none defaultMockArgs
        = .ok (onlyCudaMock n hipc)
    ∧ query (onlyCudaMock n hipc) (some Provider.hipP) (.mask Provider.cudaP) true = .ok []
    ∧ query (onlyCudaMock n hipc) (some Provider.hipP) (.mask Provider.hipP) true
        = .error (if hipc = none then .runtimeMissing Provider.hipP
                  else .notFound [Provider.hipP]) := by
  obtain ⟨k, rfl⟩ := Nat.exists_eq_succ_of_ne_zero hn.ne'
  have h0 : orZero hipc = 0 := by
    rcases hh with rfl | rfl <;> rfl
  have hrest : ∀ j ∈ List.map Nat.succ (List.range k), j < k + 1 := by
    intro j hj
    simp only [List.mem_map, List.mem_range] at hj
    obtain ⟨a, ha, rfl⟩ := hj
    omega
  refine ⟨MockImplementation_onlyCuda _ hipc hh, ?_, ?_⟩
  · have key : query (onlyCudaMock (k + 1) hipc) (some Provider.hipP)
        (.mask Provider.cudaP) true
        = (queryLoop (onlyCudaMock (k + 1) hipc) (onlyCudaMock (k + 1) hipc).snapshot
            Provider.hipP true (List.range (k + 1)) (some Provider.cudaP) []
          >>= queryFinish false) := by
      simp only [query, clearedCount_onlyCuda (k + 1) hipc h0]
      rfl
    rw [key, List.range_succ_eq_map,
      queryLoop_onlyCuda_clearReq (k + 1) hipc 0 (List.map Nat.succ (List.range k))
        (Nat.succ_pos k) hrest []]
    rfl
  · rcases hh with rfl | rfl
    · rfl
    · have key : query (onlyCudaMock (k + 1) (some 0)) (some Provider.hipP)
          (.mask Provider.hipP) true
          = (queryLoop (onlyCudaMock (k + 1) (some 0))
              (onlyCudaMock (k + 1) (some 0)).snapshot
              Provider.hipP true (List.range (k + 1)) (some Provider.hipP) []
            >>= queryFinish false) := by
        simp only [query, clearedCount_onlyCuda (k + 1) (some 0) rfl]
        rfl
      rw [key,
        queryLoop_onlyCuda_skip (k + 1) (some 0) Provider.hipP rfl (List.range (k + 1))
          (fun i hi => List.mem_range.mp hi) []]
      rfl

/-- Witness for C2 at `cuda_count=1, hip_count=None`. -/
theorem query_required_independent_of_filter_witness :
    query (onlyCudaMock 1 none) (some Provider.hipP) (.mask Provider.cudaP) true = .ok []
    ∧ query (onlyCudaMock 1 none) (some Provider.hipP) (.mask Provider.hipP) true
        = .error (.runtimeMissing Provider.hipP) := by
  obtain ⟨h1, h2, h3⟩ :=
    query_required_independent_of_filter 1 (by decide) none (Or.inl rfl)
  exact ⟨h2, h3⟩

/-- Witness for C10 at `cuda_count=2, cuda_visible=[-1, 5, 1]`: the negative
and out-of-range entries are dropped without an error. -/
theorem mock_visible_normalization_witness :
    ∃ m, MockImplementation (some 2) none (some [-1, 5, 1]) none defaultMockArgs = .ok m
      ∧ m.cuda_visible.Sorted (· < ·)
      ∧ (∀ x ∈ m.cuda_visible, 0 ≤ x ∧ x < orZero (some 2)) := by
  obtain ⟨m, hb1, hb2, _, hb4, _⟩ :=
    mock_visible_normalization (some 2) none (some [-1, 5, 1]) none defaultMockArgs
      (by decide) (by decide)
  exact ⟨m, hb1, hb2, hb4⟩

end GpuInfo
